import Mathlib

/-
Verification development for the hyperbilirubinemia risk calculator.

The TypeScript sources are shallowly embedded below:
  - utils/aap-table-loader.ts      : table structures, gestational-age key
                                     resolution, threshold value lookup
  - constants/clinical-thresholds.ts : clinical constants
  - data/follow-up-rules.ts        : follow-up rule catalog and matcher
  - core/hyperbili-risk.ts         : validation, threshold aggregation,
                                     clinical status, guidance, orchestrator

JavaScript numbers are modelled as rationals; JavaScript exceptions are
modelled with Except, the thrown error carrying its class and a short tag
naming the throw site (message formatting is out of scope).  The four JSON
reference-table data files are not among the provided sources and are
modelled from the spec where needed.
-/

/-- Errors thrown by the calculator, by error class, with a short tag naming
the throw site.  The source formats long messages; only the class and the
site matter to the properties verified here. -/
inductive CalcError where
  | invalidInput (tag : String)
  | dataNotAvailable (tag : String)
deriving DecidableEq

/-- Decides whether the list of characters needle is an initial segment of
the second list. -/
def leadsList : List Char → List Char → Bool
  | [], _ => true
  | _ :: _, [] => false
  | c :: cs, d :: ds => c = d && leadsList cs ds

/-- Decides whether the list of characters needle occurs contiguously inside
the haystack. -/
def occursIn (needle : List Char) : List Char → Bool
  | [] => leadsList needle []
  | d :: ds => leadsList needle (d :: ds) || occursIn needle ds

/-- JavaScript String.prototype.includes: substring containment, case
sensitive. -/
def strIncludes (s needle : String) : Bool :=
  occursIn needle.toList s.toList

/-- A JavaScript number used as a rule bound: a finite rational or one of the
two infinities (the rule catalog uses Infinity as an upper bound and
negative Infinity as a lower bound). -/
inductive ExtQ where
  | negInf
  | fin (q : ℚ)
  | posInf
deriving DecidableEq

/-- JavaScript comparison bound < q. -/
def ExtQ.ltq : ExtQ → ℚ → Bool
  | .negInf, _ => true
  | .fin r, q => decide (r < q)
  | .posInf, _ => false

/-- JavaScript comparison q <= bound. -/
def ExtQ.qle (q : ℚ) : ExtQ → Bool
  | .negInf => false
  | .fin r => decide (q ≤ r)
  | .posInf => true

/-- Structure of a single gestational age entry in reference tables
(interface GestationalAgeThreshold in aap-table-loader.ts).  The values
record is an association list from hour to threshold value. -/
structure GestationalAgeThreshold where
  description : String
  plateauHour : Int
  plateauValue : ℚ
  values : List (Int × ℚ)
deriving DecidableEq

/-- Structure of a complete AAP reference table (interface AapReferenceTable
in aap-table-loader.ts).  The thresholds record is an association list from
the numeric gestational-age bucket key to its bucket. -/
structure AapReferenceTable where
  title : String
  description : String
  source : String
  units : String
  thresholds : List (Int × GestationalAgeThreshold)
deriving DecidableEq

/-- The object returned by loadAllReferenceTables in aap-table-loader.ts.
The core functions below take it as a parameter, standing for the statically
imported JSON data. -/
structure AllReferenceTables where
  phototherapyNoRisk : AapReferenceTable
  phototherapyWithRisk : AapReferenceTable
  exchangeNoRisk : AapReferenceTable
  exchangeWithRisk : AapReferenceTable
deriving DecidableEq

namespace HYPERBILI_THRESHOLDS

/-- constants/clinical-thresholds.ts: ESCALATION_OFFSET_MG_DL. -/
def ESCALATION_OFFSET_MG_DL : ℚ := 2

/-- constants/clinical-thresholds.ts: TCB_CONFIRMATION_OFFSET_MG_DL. -/
def TCB_CONFIRMATION_OFFSET_MG_DL : ℚ := 2

/-- constants/clinical-thresholds.ts: DISCHARGE_WARNING_AGE_HOURS. -/
def DISCHARGE_WARNING_AGE_HOURS : ℚ := 24

/-- constants/clinical-thresholds.ts: MIN_AGE_HOURS. -/
def MIN_AGE_HOURS : ℚ := 1

/-- constants/clinical-thresholds.ts: MAX_AGE_HOURS. -/
def MAX_AGE_HOURS : ℚ := 336

/-- constants/clinical-thresholds.ts: FOLLOW_UP_AGE_THRESHOLD_HOURS. -/
def FOLLOW_UP_AGE_THRESHOLD_HOURS : ℚ := 72

/-- constants/clinical-thresholds.ts: MIN_GESTATIONAL_AGE_WEEKS. -/
def MIN_GESTATIONAL_AGE_WEEKS : ℚ := 35

/-- constants/clinical-thresholds.ts: MAX_GESTATIONAL_AGE_WEEKS. -/
def MAX_GESTATIONAL_AGE_WEEKS : ℚ := 42

/-- constants/clinical-thresholds.ts: MIN_TSB_MG_DL. -/
def MIN_TSB_MG_DL : ℚ := 0

/-- constants/clinical-thresholds.ts: MAX_TSB_MG_DL. -/
def MAX_TSB_MG_DL : ℚ := 30

end HYPERBILI_THRESHOLDS

/-- determineGestationalAgeKey from aap-table-loader.ts.  The source gathers
Object.keys(table.thresholds) as numbers; membership, maximum and minimum of
that key list do not depend on the sort the source performs.  The source
returns the key as a string and the lookup that follows converts back; keys
are kept numeric here.  The match arm for an empty key list is unreachable
for the nonempty tables considered in every theorem below (the source would
compute Math.max of an empty spread there). -/
def determineGestationalAgeKey (t : AapReferenceTable) (gestationalAge : ℚ) :
    Except CalcError Int :=
  let availableKeys := t.thresholds.map Prod.fst
  if strIncludes t.title "Without" && availableKeys.contains 40
      && decide (gestationalAge ≥ 40) then
    .ok 40
  else if strIncludes t.title "With" && strIncludes t.title "Phototherapy"
      && decide (gestationalAge ≥ 38) then
    .ok 38
  else if strIncludes t.title "Exchange" && decide (gestationalAge ≥ 38) then
    .ok 38
  else
    let flooredGA : Int := ⌊gestationalAge⌋
    if availableKeys.contains flooredGA then
      .ok flooredGA
    else
      match availableKeys.max?, availableKeys.min? with
      | some maxKey, some minKey =>
        if flooredGA ≥ maxKey then .ok maxKey
        else if flooredGA ≤ minKey then .ok minKey
        else .error (.invalidInput "unableToDetermineGestationalAgeKey")
      | _, _ => .error (.invalidInput "unableToDetermineGestationalAgeKey")

/-- Math.max(1, Math.min(336, Math.floor(ageHours))) from getThresholdValue
in aap-table-loader.ts. -/
def clampAgeHours (ageHours : ℚ) : Int :=
  max 1 (min 336 ⌊ageHours⌋)

/-- getThresholdValue from aap-table-loader.ts. -/
def getThresholdValue (t : AapReferenceTable) (gestationalAge ageHours : ℚ) :
    Except CalcError ℚ :=
  match determineGestationalAgeKey t gestationalAge with
  | .error e => .error e
  | .ok gaKey =>
    match t.thresholds.lookup gaKey with
    | none => .error (.dataNotAvailable "noThresholdDataForGestationalAge")
    | some threshold =>
      let clampedHours := clampAgeHours ageHours
      if clampedHours ≥ threshold.plateauHour then
        .ok threshold.plateauValue
      else
        match threshold.values.lookup clampedHours with
        | some value => .ok value
        | none => .error (.dataNotAvailable "noThresholdValueForHour")

/-- Age window of a follow-up rule (data/follow-up-rules.ts): a missing bound
is unconstrained on that side. -/
structure AgeCondition where
  minHours : Option ℚ := none
  maxHours : Option ℚ := none
deriving DecidableEq

/-- interface FollowUpRule from data/follow-up-rules.ts. -/
structure FollowUpRule where
  id : String
  minDifference : ExtQ
  maxDifference : ExtQ
  ageCondition : AgeCondition
  recommendation : String
  notes : Option String := none
deriving DecidableEq

/-- Rule for a gap of 0.1 to 2.0 mg/dL below threshold, infants under the
discharge-warning age (data/follow-up-rules.ts, id rule_1a).  The source
writes the eight catalog rules inline in the HYPERBILI_FOLLOW_UP_RULES array
literal; they are named here so theorems can refer to them. -/
def rule_1a : FollowUpRule :=
  { id := "rule_1a"
    minDifference := .fin 0.1
    maxDifference := .fin 2.0
    ageCondition := { maxHours := some HYPERBILI_THRESHOLDS.DISCHARGE_WARNING_AGE_HOURS }
    recommendation := "Delay discharge, consider phototherapy, measure TSB in 4 to 8 hours"
    notes := some "For infants < 24 hours old who are very close to phototherapy threshold" }

/-- Rule for a gap of 0.1 to 2.0 mg/dL below threshold, infants at or above
the discharge-warning age (id rule_1b). -/
def rule_1b : FollowUpRule :=
  { id := "rule_1b"
    minDifference := .fin 0.1
    maxDifference := .fin 2.0
    ageCondition := { minHours := some HYPERBILI_THRESHOLDS.DISCHARGE_WARNING_AGE_HOURS }
    recommendation := "Measure TSB in 4 to 24 hours. Options: delay discharge and consider phototherapy, discharge with home phototherapy if eligible, or discharge without phototherapy but with close follow-up"
    notes := some "For infants ≥ 24 hours old who are very close to phototherapy threshold" }

/-- Rule for a gap of 2.0 to 3.5 mg/dL below threshold (id rule_2). -/
def rule_2 : FollowUpRule :=
  { id := "rule_2"
    minDifference := .fin 2.0
    maxDifference := .fin 3.5
    ageCondition := {}
    recommendation := "TSB or TcB in 4 to 24 hours"
    notes := some "Moderate risk zone requiring prompt follow-up" }

/-- Rule for a gap of 3.5 to 5.5 mg/dL below threshold (id rule_3). -/
def rule_3 : FollowUpRule :=
  { id := "rule_3"
    minDifference := .fin 3.5
    maxDifference := .fin 5.5
    ageCondition := {}
    recommendation := "TSB or TcB in 1-2 days"
    notes := some "Lower risk zone with standard follow-up timing" }

/-- Rule for a gap of 5.5 to 7.0 mg/dL below threshold, infants under the
follow-up age threshold (id rule_4a). -/
def rule_4a : FollowUpRule :=
  { id := "rule_4a"
    minDifference := .fin 5.5
    maxDifference := .fin 7.0
    ageCondition := { maxHours := some HYPERBILI_THRESHOLDS.FOLLOW_UP_AGE_THRESHOLD_HOURS }
    recommendation := "Follow-up within 2 days; TcB or TSB according to clinical judgment"
    notes := some "For younger infants (< 72 hours) in the low risk zone" }

/-- Rule for a gap of 5.5 to 7.0 mg/dL below threshold, infants at or above
the follow-up age threshold (id rule_4b). -/
def rule_4b : FollowUpRule :=
  { id := "rule_4b"
    minDifference := .fin 5.5
    maxDifference := .fin 7.0
    ageCondition := { minHours := some HYPERBILI_THRESHOLDS.FOLLOW_UP_AGE_THRESHOLD_HOURS }
    recommendation := "Clinical judgment"
    notes := some "For older infants (≥ 72 hours) in the low risk zone" }

/-- Rule for a gap above 7.0 mg/dL below threshold, infants under the
follow-up age threshold (id rule_5a). -/
def rule_5a : FollowUpRule :=
  { id := "rule_5a"
    minDifference := .fin 7.0
    maxDifference := .posInf
    ageCondition := { maxHours := some HYPERBILI_THRESHOLDS.FOLLOW_UP_AGE_THRESHOLD_HOURS }
    recommendation := "Follow-up within 3 days; TcB or TSB according to clinical judgment"
    notes := some "For younger infants (< 72 hours) in the very low risk zone" }

/-- Rule for a gap above 7.0 mg/dL below threshold, infants at or above the
follow-up age threshold (id rule_5b). -/
def rule_5b : FollowUpRule :=
  { id := "rule_5b"
    minDifference := .fin 7.0
    maxDifference := .posInf
    ageCondition := { minHours := some HYPERBILI_THRESHOLDS.FOLLOW_UP_AGE_THRESHOLD_HOURS }
    recommendation := "Clinical judgment"
    notes := some "For older infants (≥ 72 hours) in the very low risk zone" }

/-- HYPERBILI_FOLLOW_UP_RULES from data/follow-up-rules.ts: the ordered,
hand-authored rule catalog. -/
def HYPERBILI_FOLLOW_UP_RULES : List FollowUpRule :=
  [rule_1a, rule_1b, rule_2, rule_3, rule_4a, rule_4b, rule_5a, rule_5b]

/-- BELOW_THRESHOLD_RULE from data/follow-up-rules.ts. -/
def BELOW_THRESHOLD_RULE : FollowUpRule :=
  { id := "rule_negative"
    minDifference := .negInf
    maxDifference := .fin 0
    ageCondition := {}
    recommendation := "TSB exceeds phototherapy threshold - phototherapy is indicated"
    notes := some "When TSB is at or above the phototherapy threshold" }

/-- The fallback rule that findFollowUpRule constructs inline when no catalog
rule matches. -/
def FALLBACK_RULE : FollowUpRule :=
  { id := "rule_fallback"
    minDifference := .fin 0
    maxDifference := .posInf
    ageCondition := {}
    recommendation := "Clinical judgment - consult AAP guidelines"
    notes := some "No specific rule found for this combination" }

/-- The matching predicate applied to each rule inside findFollowUpRule:
the difference lies in (minDifference, maxDifference] and the age satisfies
both configured bounds (lower inclusive, upper exclusive). -/
def followUpRuleMatches (differenceFromThreshold ageHours : ℚ)
    (rule : FollowUpRule) : Bool :=
  (ExtQ.ltq rule.minDifference differenceFromThreshold
      && ExtQ.qle differenceFromThreshold rule.maxDifference)
    && ((match rule.ageCondition.minHours with
         | none => true
         | some m => decide (ageHours ≥ m))
      && (match rule.ageCondition.maxHours with
          | none => true
          | some m => decide (ageHours < m)))

/-- findFollowUpRule from data/follow-up-rules.ts. -/
def findFollowUpRule (differenceFromThreshold ageHours : ℚ) : FollowUpRule :=
  if differenceFromThreshold ≤ 0 then
    BELOW_THRESHOLD_RULE
  else
    match HYPERBILI_FOLLOW_UP_RULES.find?
        (followUpRuleMatches differenceFromThreshold ageHours) with
    | some rule => rule
    | none => FALLBACK_RULE

/-- interface AapBilirubinThresholds from hyperbili-risk-types.ts. -/
structure AapBilirubinThresholds where
  phototherapy : ℚ
  escalationOfCare : ℚ
  exchangeTransfusion : ℚ
  transcutaneousBilirubinConfirmation : ℚ
deriving DecidableEq

/-- interface AapClinicalStatus from hyperbili-risk-types.ts. -/
structure AapClinicalStatus where
  requiresPhototherapy : Bool
  requiresIntensivePhototherapy : Bool
  requiresExchangeTransfusion : Bool
  requiresSerumConfirmationForTcB : Bool
deriving DecidableEq

/-- The thresholdDifferences record of HyperbiliRiskResult. -/
structure ThresholdDifferences where
  fromPhototherapy : ℚ
  fromEscalationOfCare : ℚ
  fromExchangeTransfusion : ℚ
deriving DecidableEq

/-- The clinicalGuidance record of HyperbiliRiskResult; the optional
dischargeConsiderations is a true absence when not populated. -/
structure ClinicalGuidance where
  immediateAction : String
  followUpRecommendation : String
  dischargeConsiderations : Option String
deriving DecidableEq

/-- The assessmentContext record of HyperbiliRiskResult. -/
structure AssessmentContext where
  hasNeurotoxicityRiskFactors : Bool
  presentRiskFactors : List String
  aapFigureUsed : Nat
  ageHours : ℚ
  gestationalAgeWeeks : ℚ
deriving DecidableEq

/-- interface HyperbiliRiskResult from hyperbili-risk-types.ts. -/
structure HyperbiliRiskResult where
  currentTSB : ℚ
  thresholds : AapBilirubinThresholds
  clinicalStatus : AapClinicalStatus
  thresholdDifferences : ThresholdDifferences
  clinicalGuidance : ClinicalGuidance
  assessmentContext : AssessmentContext
deriving DecidableEq

/-- interface HyperbiliRiskInput from hyperbili-risk-types.ts; riskFactors is
optional (undefined when omitted). -/
structure HyperbiliRiskInput where
  gestationalAge : ℚ
  currentAgeHours : ℚ
  currentTSB : ℚ
  riskFactors : Option (List String) := none
deriving DecidableEq

/-- interface BilirubinThresholdsInput from hyperbili-risk-types.ts. -/
structure BilirubinThresholdsInput where
  gestationalAgeWeeks : ℚ
  ageHours : ℚ
  hasNeurotoxicityRiskFactors : Bool
deriving DecidableEq

/-- determineAapClinicalAction from hyperbili-risk-types.ts: a top-down
conditional chain, first match wins. -/
def determineAapClinicalAction (bilirubinMgDl : ℚ)
    (thresholds : AapBilirubinThresholds) : String :=
  if bilirubinMgDl ≥ thresholds.exchangeTransfusion then
    "Begin exchange transfusion"
  else if bilirubinMgDl ≥ thresholds.escalationOfCare then
    "Begin intensive phototherapy and prepare for exchange transfusion"
  else if bilirubinMgDl ≥ thresholds.phototherapy then
    "Begin phototherapy"
  else
    "No phototherapy required"

/-- assessClinicalStatus from core/hyperbili-risk.ts. -/
def assessClinicalStatus (bilirubinMgDl : ℚ)
    (thresholds : AapBilirubinThresholds) : AapClinicalStatus :=
  { requiresPhototherapy := decide (bilirubinMgDl ≥ thresholds.phototherapy)
    requiresIntensivePhototherapy :=
      decide (bilirubinMgDl ≥ thresholds.escalationOfCare)
    requiresExchangeTransfusion :=
      decide (bilirubinMgDl ≥ thresholds.exchangeTransfusion)
    requiresSerumConfirmationForTcB :=
      decide (bilirubinMgDl ≥ thresholds.transcutaneousBilirubinConfirmation) }

/-- generateClinicalGuidance from core/hyperbili-risk.ts.  The discharge
considerations template literal is written with its constants substituted. -/
def generateClinicalGuidance (bilirubinMgDl : ℚ)
    (thresholds : AapBilirubinThresholds) (ageHours : ℚ) : ClinicalGuidance :=
  let phototherapyDiff := bilirubinMgDl - thresholds.phototherapy
  let immediateAction := determineAapClinicalAction bilirubinMgDl thresholds
  let followUpRecommendation :=
    if phototherapyDiff ≥ 0 then
      "Phototherapy indicated - see clinical action"
    else
      (findFollowUpRule (-phototherapyDiff) ageHours).recommendation
  let dischargeConsiderations :=
    if ageHours < HYPERBILI_THRESHOLDS.DISCHARGE_WARNING_AGE_HOURS
        ∧ phototherapyDiff > -HYPERBILI_THRESHOLDS.TCB_CONFIRMATION_OFFSET_MG_DL then
      some "Consider delaying discharge for infants <24 hours old when TSB is within 2 mg/dL of phototherapy threshold"
    else
      none
  { immediateAction := immediateAction
    followUpRecommendation := followUpRecommendation
    dischargeConsiderations := dischargeConsiderations }

/-- validateHyperbiliRiskInput from core/hyperbili-risk.ts: the ordered
clinical range checks, throwing InvalidInputError on the first violation. -/
def validateHyperbiliRiskInput (input : HyperbiliRiskInput) :
    Except CalcError Unit :=
  if input.gestationalAge < HYPERBILI_THRESHOLDS.MIN_GESTATIONAL_AGE_WEEKS then
    .error (.invalidInput "gestationalAgeBelowMinimum")
  else if input.gestationalAge > HYPERBILI_THRESHOLDS.MAX_GESTATIONAL_AGE_WEEKS then
    .error (.invalidInput "gestationalAgeAboveMaximum")
  else if input.currentAgeHours < HYPERBILI_THRESHOLDS.MIN_AGE_HOURS then
    .error (.invalidInput "ageBelowMinimum")
  else if input.currentAgeHours > HYPERBILI_THRESHOLDS.MAX_AGE_HOURS then
    .error (.invalidInput "ageExceedsMaximum")
  else if input.currentTSB < HYPERBILI_THRESHOLDS.MIN_TSB_MG_DL then
    .error (.invalidInput "tsbBelowMinimum")
  else if input.currentTSB > HYPERBILI_THRESHOLDS.MAX_TSB_MG_DL then
    .error (.invalidInput "tsbAboveMaximum")
  else
    .ok ()

/-- calculateBilirubinThresholds from core/hyperbili-risk.ts; the loaded
reference-table store is the tables parameter. -/
def calculateBilirubinThresholds (tables : AllReferenceTables)
    (input : BilirubinThresholdsInput) : Except CalcError AapBilirubinThresholds :=
  if input.ageHours > HYPERBILI_THRESHOLDS.MAX_AGE_HOURS then
    .error (.invalidInput "ageExceedsMaximum")
  else
    let clampedAgeHours := input.ageHours
    let phototherapyTable :=
      if input.hasNeurotoxicityRiskFactors then tables.phototherapyWithRisk
      else tables.phototherapyNoRisk
    let exchangeTable :=
      if input.hasNeurotoxicityRiskFactors then tables.exchangeWithRisk
      else tables.exchangeNoRisk
    match getThresholdValue phototherapyTable input.gestationalAgeWeeks clampedAgeHours with
    | .error e => .error e
    | .ok phototherapy =>
      match getThresholdValue exchangeTable input.gestationalAgeWeeks clampedAgeHours with
      | .error e => .error e
      | .ok exchangeTransfusion =>
        .ok { phototherapy := phototherapy
              escalationOfCare :=
                exchangeTransfusion - HYPERBILI_THRESHOLDS.ESCALATION_OFFSET_MG_DL
              exchangeTransfusion := exchangeTransfusion
              transcutaneousBilirubinConfirmation :=
                phototherapy - HYPERBILI_THRESHOLDS.TCB_CONFIRMATION_OFFSET_MG_DL }

/-- assessHyperbiliRisk from core/hyperbili-risk.ts: validate, derive the
risk-factor context, compute thresholds, status, differences and guidance,
and assemble the result. -/
def assessHyperbiliRisk (tables : AllReferenceTables)
    (input : HyperbiliRiskInput) : Except CalcError HyperbiliRiskResult :=
  match validateHyperbiliRiskInput input with
  | .error e => .error e
  | .ok _ =>
    let ageHours := input.currentAgeHours
    let presentRiskFactors := input.riskFactors.getD []
    let hasNeurotoxicityRiskFactors := decide (presentRiskFactors.length > 0)
    let aapFigureUsed : Nat := if hasNeurotoxicityRiskFactors then 3 else 2
    match calculateBilirubinThresholds tables
        { gestationalAgeWeeks := input.gestationalAge
          ageHours := ageHours
          hasNeurotoxicityRiskFactors := hasNeurotoxicityRiskFactors } with
    | .error e => .error e
    | .ok thresholds =>
      let clinicalStatus := assessClinicalStatus input.currentTSB thresholds
      let thresholdDifferences : ThresholdDifferences :=
        { fromPhototherapy := input.currentTSB - thresholds.phototherapy
          fromEscalationOfCare := input.currentTSB - thresholds.escalationOfCare
          fromExchangeTransfusion := input.currentTSB - thresholds.exchangeTransfusion }
      let clinicalGuidance := generateClinicalGuidance input.currentTSB thresholds ageHours
      .ok { currentTSB := input.currentTSB
            thresholds := thresholds
            clinicalStatus := clinicalStatus
            thresholdDifferences := thresholdDifferences
            clinicalGuidance := clinicalGuidance
            assessmentContext :=
              { hasNeurotoxicityRiskFactors := hasNeurotoxicityRiskFactors
                presentRiskFactors := presentRiskFactors
                aapFigureUsed := aapFigureUsed
                ageHours := input.currentAgeHours
                gestationalAgeWeeks := input.gestationalAge } }

/-- Modelled from the spec: the four reference-table JSON data files under
data/aap-reference-tables are not among the provided sources.  Spec section 6
fixes their schema and unit, section 3 their structural invariants (values
cover every hour from 1 up to plateauHour), and section 4.1 their identities
and bucket layout: the no-risk phototherapy table carries buckets up to a
40-week grouping, the with-risk phototherapy table and both exchange tables
group 38 weeks and above.  The title wording follows the identity tests the
key resolver applies (the word Without for the no-risk variants, With for the
with-risk variants, Phototherapy respectively Exchange for the intervention);
the numeric threshold values are illustrative and no claim settled below
depends on them. -/
def phototherapyNoRiskTable : AapReferenceTable :=
  { title := "Phototherapy Thresholds: Infants Without Hyperbilirubinemia Neurotoxicity Risk Factors"
    description := "Phototherapy thresholds by gestational age and age in hours"
    source := "AAP 2022 Clinical Practice Guideline, Supplemental Table 1"
    units := "mg/dL"
    thresholds :=
      [ (35, ⟨"35 weeks", 4, 12, [(1, 11), (2, 11.2), (3, 11.6), (4, 12)]⟩)
      , (36, ⟨"36 weeks", 4, 12.5, [(1, 11.5), (2, 11.8), (3, 12.1), (4, 12.5)]⟩)
      , (37, ⟨"37 weeks", 4, 13, [(1, 12), (2, 12.3), (3, 12.6), (4, 13)]⟩)
      , (38, ⟨"38 weeks", 4, 14, [(1, 13), (2, 13.3), (3, 13.6), (4, 14)]⟩)
      , (39, ⟨"39 weeks", 4, 14.5, [(1, 13.5), (2, 13.8), (3, 14.1), (4, 14.5)]⟩)
      , (40, ⟨"40 or more weeks", 4, 15, [(1, 14), (2, 14.3), (3, 14.6), (4, 15)]⟩) ] }

/-- Modelled from the spec: the with-risk phototherapy reference table; see
the comment on phototherapyNoRiskTable. -/
def phototherapyWithRiskTable : AapReferenceTable :=
  { title := "Phototherapy Thresholds: Infants With Hyperbilirubinemia Neurotoxicity Risk Factors"
    description := "Risk-adjusted phototherapy thresholds by gestational age and age in hours"
    source := "AAP 2022 Clinical Practice Guideline, Supplemental Table 2"
    units := "mg/dL"
    thresholds :=
      [ (35, ⟨"35 weeks", 4, 10, [(1, 9), (2, 9.3), (3, 9.6), (4, 10)]⟩)
      , (36, ⟨"36 weeks", 4, 10.5, [(1, 9.5), (2, 9.8), (3, 10.1), (4, 10.5)]⟩)
      , (37, ⟨"37 weeks", 4, 11, [(1, 10), (2, 10.3), (3, 10.6), (4, 11)]⟩)
      , (38, ⟨"38 or more weeks", 4, 12, [(1, 11), (2, 11.3), (3, 11.6), (4, 12)]⟩) ] }

/-- Modelled from the spec: the no-risk exchange-transfusion reference table;
see the comment on phototherapyNoRiskTable. -/
def exchangeNoRiskTable : AapReferenceTable :=
  { title := "Exchange Transfusion Thresholds: Infants Without Hyperbilirubinemia Neurotoxicity Risk Factors"
    description := "Exchange transfusion thresholds by gestational age and age in hours"
    source := "AAP 2022 Clinical Practice Guideline, Supplemental Table 3"
    units := "mg/dL"
    thresholds :=
      [ (35, ⟨"35 weeks", 4, 17, [(1, 16), (2, 16.3), (3, 16.6), (4, 17)]⟩)
      , (36, ⟨"36 weeks", 4, 18, [(1, 17), (2, 17.3), (3, 17.6), (4, 18)]⟩)
      , (37, ⟨"37 weeks", 4, 18.5, [(1, 17.5), (2, 17.8), (3, 18.1), (4, 18.5)]⟩)
      , (38, ⟨"38 or more weeks", 4, 19, [(1, 18), (2, 18.3), (3, 18.6), (4, 19)]⟩) ] }

/-- Modelled from the spec: the with-risk exchange-transfusion reference
table; see the comment on phototherapyNoRiskTable. -/
def exchangeWithRiskTable : AapReferenceTable :=
  { title := "Exchange Transfusion Thresholds: Infants With Hyperbilirubinemia Neurotoxicity Risk Factors"
    description := "Risk-adjusted exchange transfusion thresholds by gestational age and age in hours"
    source := "AAP 2022 Clinical Practice Guideline, Supplemental Table 4"
    units := "mg/dL"
    thresholds :=
      [ (35, ⟨"35 weeks", 4, 15, [(1, 14), (2, 14.3), (3, 14.6), (4, 15)]⟩)
      , (36, ⟨"36 weeks", 4, 16, [(1, 15), (2, 15.3), (3, 15.6), (4, 16)]⟩)
      , (37, ⟨"37 weeks", 4, 16.5, [(1, 15.5), (2, 15.8), (3, 16.1), (4, 16.5)]⟩)
      , (38, ⟨"38 or more weeks", 4, 17, [(1, 16), (2, 16.3), (3, 16.6), (4, 17)]⟩) ] }

/-- Modelled from the spec: the table store returned by
loadAllReferenceTables, assembled from the four modelled tables. -/
def modelReferenceTables : AllReferenceTables :=
  { phototherapyNoRisk := phototherapyNoRiskTable
    phototherapyWithRisk := phototherapyWithRiskTable
    exchangeNoRisk := exchangeNoRiskTable
    exchangeWithRisk := exchangeWithRiskTable }

/-- A gestational-age bucket instantiating the data-integrity error scenario
of spec section 8: plateauHour is 30 but the values record is missing the
hour-24 entry (it covers hours 1 to 30 with 24 absent). -/
def missingHourBucket : GestationalAgeThreshold :=
  ⟨"38 weeks", 30, 14,
    [ (1, 10), (2, 10.1), (3, 10.2), (4, 10.3), (5, 10.4), (6, 10.5)
    , (7, 10.6), (8, 10.7), (9, 10.8), (10, 10.9), (11, 11), (12, 11.1)
    , (13, 11.2), (14, 11.3), (15, 11.4), (16, 11.5), (17, 11.6)
    , (18, 11.7), (19, 11.8), (20, 11.9), (21, 12), (22, 12.1)
    , (23, 12.2), (25, 12.4), (26, 12.5), (27, 12.6), (28, 12.7)
    , (29, 12.8), (30, 12.9) ]⟩

/-- A reference table carrying the corrupted bucket above under the key 38.
The title deliberately matches none of the identity tests of the key
resolver, so the bucket is reached by the floored-value rule. -/
def missingHourTable : AapReferenceTable :=
  { title := "Corrupted Reference Data"
    description := "A bucket lacking the hour-24 entry below its plateau"
    source := "constructed error scenario"
    units := "mg/dL"
    thresholds := [ (38, missingHourBucket) ] }

/-- Propositional form of the JavaScript comparison bound < q. -/
def ExtQ.LtProp : ExtQ → ℚ → Prop
  | .negInf, _ => True
  | .fin r, q => r < q
  | .posInf, _ => False

/-- Propositional form of the JavaScript comparison q <= bound. -/
def ExtQ.LeProp (q : ℚ) : ExtQ → Prop
  | .negInf => False
  | .fin r => q ≤ r
  | .posInf => True

/-- Propositional reading of the matching test of findFollowUpRule: the
difference lies in the band (minDifference, maxDifference], lower bound
exclusive and upper bound inclusive, and the age satisfies the configured
window, lower bound inclusive, upper bound exclusive, a missing bound
unconstrained. -/
def FollowUpRuleApplies (d a : ℚ) (r : FollowUpRule) : Prop :=
  ExtQ.LtProp r.minDifference d ∧ ExtQ.LeProp d r.maxDifference
    ∧ (match r.ageCondition.minHours with | none => True | some m => a ≥ m)
    ∧ (match r.ageCondition.maxHours with | none => True | some m => a < m)

/-- Decidable equality for Except results, used to evaluate the embedded
functions on concrete inputs. -/
instance {ε α : Type} [DecidableEq ε] [DecidableEq α] : DecidableEq (Except ε α) :=
  fun a b =>
    match a, b with
    | .ok x, .ok y =>
      if h : x = y then .isTrue (by rw [h]) else .isFalse (fun hc => h (Except.ok.inj hc))
    | .error x, .error y =>
      if h : x = y then .isTrue (by rw [h]) else .isFalse (fun hc => h (Except.error.inj hc))
    | .ok _, .error _ => .isFalse (fun hc => Except.noConfusion hc)
    | .error _, .ok _ => .isFalse (fun hc => Except.noConfusion hc)

/-- The Bool test applied by findFollowUpRule agrees with its propositional
reading. -/
theorem followUpRuleMatches_iff (d a : ℚ) (r : FollowUpRule) :
    followUpRuleMatches d a r = true ↔ FollowUpRuleApplies d a r := by
  obtain ⟨i, mn, mx, ⟨amn, amx⟩, rc, nt⟩ := r
  simp only [followUpRuleMatches, FollowUpRuleApplies, Bool.and_eq_true]
  cases mn <;> cases mx <;> cases amn <;> cases amx <;>
    simp [ExtQ.ltq, ExtQ.qle, ExtQ.LtProp, ExtQ.LeProp, and_assoc]

/-- A successful find? splits its list into a prefix of non-matching
elements, the returned element, and a remainder. -/
theorem find?_eq_some_decomp {α : Type} (p : α → Bool) :
    ∀ (l : List α) (r : α), l.find? p = some r →
      ∃ l₁ l₂, l = l₁ ++ r :: l₂ ∧ p r = true ∧ ∀ x ∈ l₁, p x = false := by
  intro l
  induction l with
  | nil => intro r h; simp [List.find?] at h
  | cons a as ih =>
    intro r h
    by_cases hpa : p a = true
    · rw [List.find?_cons_of_pos _ hpa] at h
      obtain rfl : a = r := by injection h
      exact ⟨[], as, rfl, hpa, by simp⟩
    · rw [List.find?_cons_of_neg _ hpa] at h
      obtain ⟨l₁, l₂, heq, hpr, hall⟩ := ih r h
      refine ⟨a :: l₁, l₂, by rw [heq]; rfl, hpr, ?_⟩
      intro x hx
      rcases List.mem_cons.mp hx with rfl | hx1
      · exact Bool.eq_false_iff.mpr hpa
      · exact hall x hx1

/-- The only error the gestational-age key resolver can produce is its final
unresolvable-key throw. -/
theorem determineGestationalAgeKey_error_tag (t : AapReferenceTable) (ga : ℚ)
    (e : CalcError) (h : determineGestationalAgeKey t ga = .error e) :
    e = .invalidInput "unableToDetermineGestationalAgeKey" := by
  unfold determineGestationalAgeKey at h
  simp only [] at h
  split_ifs at h <;>
    first
      | exact Except.noConfusion h
      | exact (Except.error.inj h).symm
      | (split at h <;>
          first
            | exact Except.noConfusion h
            | exact (Except.error.inj h).symm
            | (split_ifs at h <;>
                first
                  | exact Except.noConfusion h
                  | exact (Except.error.inj h).symm))

/-- Every error of the threshold value lookup is either one of its two
data-not-available throws or the unresolvable-key throw of the resolver. -/
theorem getThresholdValue_error_kinds (t : AapReferenceTable) (ga ah : ℚ)
    (e : CalcError) (h : getThresholdValue t ga ah = .error e) :
    (∃ s, e = .dataNotAvailable s)
      ∨ e = .invalidInput "unableToDetermineGestationalAgeKey" := by
  unfold getThresholdValue at h
  cases hk : determineGestationalAgeKey t ga with
  | error e2 =>
    simp only [hk] at h
    obtain rfl : e2 = e := by injection h
    exact Or.inr (determineGestationalAgeKey_error_tag t ga e2 hk)
  | ok k =>
    simp only [hk] at h
    cases hb : t.thresholds.lookup k with
    | none =>
      simp only [hb] at h
      exact Or.inl ⟨_, by injection h with h; exact h.symm⟩
    | some b =>
      simp only [hb] at h
      split at h
      · exact Except.noConfusion h
      · cases hv : b.values.lookup (clampAgeHours ah) with
        | none =>
          simp only [hv] at h
          exact Or.inl ⟨_, by injection h with h; exact h.symm⟩
        | some v =>
          simp only [hv] at h
          exact Except.noConfusion h

/-- For an age within the guideline maximum, every error of the threshold
aggregator comes from one of its two reference-table lookups. -/
theorem calculateBilirubinThresholds_error_kinds (tables : AllReferenceTables)
    (input : BilirubinThresholdsInput) (e : CalcError)
    (hage : input.ageHours ≤ HYPERBILI_THRESHOLDS.MAX_AGE_HOURS)
    (h : calculateBilirubinThresholds tables input = .error e) :
    (∃ s, e = .dataNotAvailable s)
      ∨ e = .invalidInput "unableToDetermineGestationalAgeKey" := by
  unfold calculateBilirubinThresholds at h
  rw [if_neg (not_lt.mpr hage)] at h
  cases hp : getThresholdValue
      (if input.hasNeurotoxicityRiskFactors then tables.phototherapyWithRisk
        else tables.phototherapyNoRisk)
      input.gestationalAgeWeeks input.ageHours with
  | error e2 =>
    simp only [hp] at h
    obtain rfl : e2 = e := by injection h
    exact getThresholdValue_error_kinds _ _ _ _ hp
  | ok p =>
    simp only [hp] at h
    cases hx : getThresholdValue
        (if input.hasNeurotoxicityRiskFactors then tables.exchangeWithRisk
          else tables.exchangeNoRisk)
        input.gestationalAgeWeeks input.ageHours with
    | error e2 =>
      simp only [hx] at h
      obtain rfl : e2 = e := by injection h
      exact getThresholdValue_error_kinds _ _ _ _ hx
    | ok x =>
      simp only [hx] at h
      exact Except.noConfusion h

/-- Inputs inside all six clinical ranges pass validation. -/
theorem validateHyperbiliRiskInput_ok (i : HyperbiliRiskInput)
    (h1 : HYPERBILI_THRESHOLDS.MIN_GESTATIONAL_AGE_WEEKS ≤ i.gestationalAge)
    (h2 : i.gestationalAge ≤ HYPERBILI_THRESHOLDS.MAX_GESTATIONAL_AGE_WEEKS)
    (h3 : HYPERBILI_THRESHOLDS.MIN_AGE_HOURS ≤ i.currentAgeHours)
    (h4 : i.currentAgeHours ≤ HYPERBILI_THRESHOLDS.MAX_AGE_HOURS)
    (h5 : HYPERBILI_THRESHOLDS.MIN_TSB_MG_DL ≤ i.currentTSB)
    (h6 : i.currentTSB ≤ HYPERBILI_THRESHOLDS.MAX_TSB_MG_DL) :
    validateHyperbiliRiskInput i = .ok () := by
  unfold validateHyperbiliRiskInput
  rw [if_neg (not_lt.mpr h1), if_neg (not_lt.mpr h2), if_neg (not_lt.mpr h3),
    if_neg (not_lt.mpr h4), if_neg (not_lt.mpr h5), if_neg (not_lt.mpr h6)]

/-- A validation error propagates unchanged through the orchestrator. -/
theorem assessHyperbiliRisk_of_validate_error (tables : AllReferenceTables)
    (i : HyperbiliRiskInput) (e : CalcError)
    (h : validateHyperbiliRiskInput i = .error e) :
    assessHyperbiliRisk tables i = .error e := by
  unfold assessHyperbiliRisk
  simp only [h]

/-- Claim C1: whenever threshold derivation succeeds, the returned thresholds
satisfy escalationOfCare = exchangeTransfusion minus ESCALATION_OFFSET_MG_DL
and transcutaneousBilirubinConfirmation = phototherapy minus
TCB_CONFIRMATION_OFFSET_MG_DL, both offsets are non-negative (value 2), and
therefore exchangeTransfusion is at least escalationOfCare and phototherapy
is at least transcutaneousBilirubinConfirmation. -/
theorem calculateBilirubinThresholds_offsetInvariants
    (tables : AllReferenceTables) (input : BilirubinThresholdsInput)
    (t : AapBilirubinThresholds)
    (h : calculateBilirubinThresholds tables input = .ok t) :
    t.escalationOfCare
        = t.exchangeTransfusion - HYPERBILI_THRESHOLDS.ESCALATION_OFFSET_MG_DL
      ∧ t.transcutaneousBilirubinConfirmation
        = t.phototherapy - HYPERBILI_THRESHOLDS.TCB_CONFIRMATION_OFFSET_MG_DL
      ∧ 0 ≤ HYPERBILI_THRESHOLDS.ESCALATION_OFFSET_MG_DL
      ∧ 0 ≤ HYPERBILI_THRESHOLDS.TCB_CONFIRMATION_OFFSET_MG_DL
      ∧ t.escalationOfCare ≤ t.exchangeTransfusion
      ∧ t.transcutaneousBilirubinConfirmation ≤ t.phototherapy := by
  unfold calculateBilirubinThresholds at h
  split at h
  · exact Except.noConfusion h
  · simp only [] at h
    cases hp : getThresholdValue
        (if input.hasNeurotoxicityRiskFactors then tables.phototherapyWithRisk
          else tables.phototherapyNoRisk)
        input.gestationalAgeWeeks input.ageHours with
    | error e => simp only [hp] at h; exact Except.noConfusion h
    | ok p =>
      simp only [hp] at h
      cases hx : getThresholdValue
          (if input.hasNeurotoxicityRiskFactors then tables.exchangeWithRisk
            else tables.exchangeNoRisk)
          input.gestationalAgeWeeks input.ageHours with
      | error e => simp only [hx] at h; exact Except.noConfusion h
      | ok x =>
        simp only [hx] at h
        obtain rfl : _ = t := Except.ok.inj h
        refine ⟨rfl, rfl,
          by norm_num [HYPERBILI_THRESHOLDS.ESCALATION_OFFSET_MG_DL],
          by norm_num [HYPERBILI_THRESHOLDS.TCB_CONFIRMATION_OFFSET_MG_DL], ?_, ?_⟩
        · show x - HYPERBILI_THRESHOLDS.ESCALATION_OFFSET_MG_DL ≤ x
          simp only [HYPERBILI_THRESHOLDS.ESCALATION_OFFSET_MG_DL]
          linarith
        · show p - HYPERBILI_THRESHOLDS.TCB_CONFIRMATION_OFFSET_MG_DL ≤ p
          simp only [HYPERBILI_THRESHOLDS.TCB_CONFIRMATION_OFFSET_MG_DL]
          linarith

/-- Witness for claim C1 at a concrete successful derivation. -/
theorem calculateBilirubinThresholds_offsetInvariants_witness :
    calculateBilirubinThresholds modelReferenceTables ⟨39, 48, false⟩
        = .ok ⟨14, 19 - HYPERBILI_THRESHOLDS.ESCALATION_OFFSET_MG_DL, 19,
               14 - HYPERBILI_THRESHOLDS.TCB_CONFIRMATION_OFFSET_MG_DL⟩
      ∧ 19 - HYPERBILI_THRESHOLDS.ESCALATION_OFFSET_MG_DL ≤ (19 : ℚ)
      ∧ 14 - HYPERBILI_THRESHOLDS.TCB_CONFIRMATION_OFFSET_MG_DL ≤ (14 : ℚ) := by
  have h := calculateBilirubinThresholds_offsetInvariants modelReferenceTables
    ⟨39, 48, false⟩ _ rfl
  exact ⟨rfl, h.2.2.2.2.1, h.2.2.2.2.2⟩

/-- Claim C2: the claim expects a gestational age of 39 weeks to resolve, on
the no-risk phototherapy table, to the bucket defined at the floored value
39; the code instead resolves it to the 38-week key, because the title of
the no-risk phototherapy table contains the word Without, of which With is a
substring, and also the word Phototherapy, so the 38-week grouping branch
written for the with-risk phototherapy table fires for the no-risk table as
well.  This theorem evaluates the resolver at the failing input and records
the facts the divergence rests on. -/
theorem determineGestationalAgeKey_noRiskGroupingBug :
    determineGestationalAgeKey phototherapyNoRiskTable 39 = .ok 38
      ∧ (phototherapyNoRiskTable.thresholds.map Prod.fst).contains 39 = true
      ∧ strIncludes phototherapyNoRiskTable.title "Without" = true
      ∧ strIncludes phototherapyNoRiskTable.title "With" = true
      ∧ strIncludes phototherapyNoRiskTable.title "Phototherapy" = true
      ∧ (38 : Int) ≠ 39 := by
  exact ⟨by decide, by decide, by decide, by decide, by decide, by decide⟩

/-- Claim C6: the immediate-action selection is a top-down first-match chain:
the exchange action is returned exactly when the measurement reaches the
exchange threshold, the intensive-phototherapy action exactly when it is
below exchange but reaches escalation, the phototherapy action exactly when
it is below both but reaches phototherapy, and the no-phototherapy message
exactly when it is below all three. -/
theorem determineAapClinicalAction_topDownFirstMatch (b : ℚ)
    (t : AapBilirubinThresholds) :
    (determineAapClinicalAction b t = "Begin exchange transfusion"
        ↔ b ≥ t.exchangeTransfusion)
      ∧ (determineAapClinicalAction b t
            = "Begin intensive phototherapy and prepare for exchange transfusion"
        ↔ (b < t.exchangeTransfusion ∧ b ≥ t.escalationOfCare))
      ∧ (determineAapClinicalAction b t = "Begin phototherapy"
        ↔ (b < t.exchangeTransfusion ∧ b < t.escalationOfCare ∧ b ≥ t.phototherapy))
      ∧ (determineAapClinicalAction b t = "No phototherapy required"
        ↔ (b < t.exchangeTransfusion ∧ b < t.escalationOfCare ∧ b < t.phototherapy)) := by
  unfold determineAapClinicalAction
  split_ifs with h1 h2 h3
  · exact ⟨iff_of_true rfl h1,
      iff_of_false (by decide) fun hc => absurd hc.1 (not_lt.mpr h1),
      iff_of_false (by decide) fun hc => absurd hc.1 (not_lt.mpr h1),
      iff_of_false (by decide) fun hc => absurd hc.1 (not_lt.mpr h1)⟩
  · exact ⟨iff_of_false (by decide) fun hc => absurd hc h1,
      iff_of_true rfl ⟨not_le.mp h1, h2⟩,
      iff_of_false (by decide) fun hc => absurd hc.2.1 (not_lt.mpr h2),
      iff_of_false (by decide) fun hc => absurd hc.2.1 (not_lt.mpr h2)⟩
  · exact ⟨iff_of_false (by decide) fun hc => absurd hc h1,
      iff_of_false (by decide) fun hc => absurd hc.2 h2,
      iff_of_true rfl ⟨not_le.mp h1, not_le.mp h2, h3⟩,
      iff_of_false (by decide) fun hc => absurd hc.2.2 (not_lt.mpr h3)⟩
  · exact ⟨iff_of_false (by decide) fun hc => absurd hc h1,
      iff_of_false (by decide) fun hc => absurd hc.2 h2,
      iff_of_false (by decide) fun hc => absurd hc.2.2 h3,
      iff_of_true rfl ⟨not_le.mp h1, not_le.mp h2, not_le.mp h3⟩⟩

/-- Claim C7: each of the four clinical-status booleans equals the non-strict
comparison of the measurement against the corresponding threshold, and a
measurement exactly at a threshold sets the corresponding flag. -/
theorem assessClinicalStatus_nonStrictComparisons (b : ℚ)
    (t : AapBilirubinThresholds) :
    ((assessClinicalStatus b t).requiresPhototherapy = true ↔ b ≥ t.phototherapy)
      ∧ ((assessClinicalStatus b t).requiresIntensivePhototherapy = true
        ↔ b ≥ t.escalationOfCare)
      ∧ ((assessClinicalStatus b t).requiresExchangeTransfusion = true
        ↔ b ≥ t.exchangeTransfusion)
      ∧ ((assessClinicalStatus b t).requiresSerumConfirmationForTcB = true
        ↔ b ≥ t.transcutaneousBilirubinConfirmation)
      ∧ (b = t.phototherapy → (assessClinicalStatus b t).requiresPhototherapy = true)
      ∧ (b = t.escalationOfCare
        → (assessClinicalStatus b t).requiresIntensivePhototherapy = true)
      ∧ (b = t.exchangeTransfusion
        → (assessClinicalStatus b t).requiresExchangeTransfusion = true)
      ∧ (b = t.transcutaneousBilirubinConfirmation
        → (assessClinicalStatus b t).requiresSerumConfirmationForTcB = true) := by
  refine ⟨by simp [assessClinicalStatus], by simp [assessClinicalStatus],
    by simp [assessClinicalStatus], by simp [assessClinicalStatus],
    ?_, ?_, ?_, ?_⟩ <;>
    · intro hb
      subst hb
      simp [assessClinicalStatus]

/-- Witness for claim C7 at a measurement exactly on the phototherapy
threshold. -/
theorem assessClinicalStatus_nonStrictComparisons_witness :
    (5 : ℚ) = (5 : ℚ)
      ∧ (assessClinicalStatus 5 ⟨5, 7, 9, 3⟩).requiresPhototherapy = true :=
  ⟨rfl, (assessClinicalStatus_nonStrictComparisons 5 ⟨5, 7, 9, 3⟩).2.2.2.2.1 rfl⟩

/-- Claim C5: for every table, resolved bucket and age whose clamped and
floored hour is at least the plateauHour of the bucket, the threshold lookup
returns exactly plateauValue; in particular, for a plateauHour inside the
table domain [1, 336], the same plateauValue is returned at ageHours equal
to plateauHour, plateauHour plus 50, and 336, the clamp ceiling. -/
theorem getThresholdValue_plateauCorrectness
    (t : AapReferenceTable) (ga ageHours : ℚ) (k : Int)
    (b : GestationalAgeThreshold)
    (hk : determineGestationalAgeKey t ga = .ok k)
    (hb : t.thresholds.lookup k = some b) :
    (b.plateauHour ≤ clampAgeHours ageHours →
      getThresholdValue t ga ageHours = .ok b.plateauValue)
      ∧ (1 ≤ b.plateauHour → b.plateauHour ≤ 336 →
          getThresholdValue t ga (b.plateauHour : ℚ) = .ok b.plateauValue
          ∧ getThresholdValue t ga ((b.plateauHour : ℚ) + 50) = .ok b.plateauValue
          ∧ getThresholdValue t ga (336 : ℚ) = .ok b.plateauValue) := by
  have key : ∀ age : ℚ, b.plateauHour ≤ clampAgeHours age →
      getThresholdValue t ga age = .ok b.plateauValue := by
    intro age hage
    unfold getThresholdValue
    simp only [hk, hb]
    rw [if_pos hage]
  refine ⟨key ageHours, fun h1 h336 => ⟨?_, ?_, ?_⟩⟩
  · refine key _ ?_
    unfold clampAgeHours
    rw [Int.floor_intCast]
    exact le_max_of_le_right (le_min h336 le_rfl)
  · refine key _ ?_
    unfold clampAgeHours
    have hfl : ⌊(b.plateauHour : ℚ) + 50⌋ = b.plateauHour + 50 := by
      rw [show ((b.plateauHour : ℚ) + 50) = ((b.plateauHour + 50 : Int) : ℚ) by
        push_cast; ring]
      exact Int.floor_intCast _
    rw [hfl]
    exact le_max_of_le_right (le_min h336 (by linarith))
  · refine key _ ?_
    unfold clampAgeHours
    rw [show ((336 : ℚ)) = ((336 : Int) : ℚ) by norm_num, Int.floor_intCast]
    exact le_max_of_le_right (le_min h336 h336)

/-- Witness for claim C5 on a concrete bucket with plateauHour 4. -/
theorem getThresholdValue_plateauCorrectness_witness :
    (1 : Int) ≤ 4 ∧ (4 : Int) ≤ 336
      ∧ getThresholdValue phototherapyNoRiskTable 36 100 = .ok 12.5
      ∧ getThresholdValue phototherapyNoRiskTable 36 336 = .ok 12.5 := by
  have h := getThresholdValue_plateauCorrectness phototherapyNoRiskTable 36 100 36
    ⟨"36 weeks", 4, 12.5, [(1, 11.5), (2, 11.8), (3, 12.1), (4, 12.5)]⟩ rfl rfl
  exact ⟨by decide, by decide, h.1 (by decide), (h.2 (by decide) (by decide)).2.2⟩

/-- Claim C9: when the resolved bucket lacks a value entry at the clamped
hour while that hour is strictly below plateauHour, the lookup fails with
the data-not-available error raised at the missing-hour site; it returns no
substitute value. -/
theorem getThresholdValue_missingHourFailure
    (t : AapReferenceTable) (ga ageHours : ℚ) (k : Int)
    (b : GestationalAgeThreshold)
    (hk : determineGestationalAgeKey t ga = .ok k)
    (hb : t.thresholds.lookup k = some b)
    (hlt : clampAgeHours ageHours < b.plateauHour)
    (hmiss : b.values.lookup (clampAgeHours ageHours) = none) :
    getThresholdValue t ga ageHours
      = .error (.dataNotAvailable "noThresholdValueForHour") := by
  unfold getThresholdValue
  simp only [hk, hb]
  rw [if_neg (not_le.mpr hlt)]
  simp only [hmiss]

/-- Witness for claim C9: the spec error scenario, a bucket with plateauHour
30 missing its hour-24 entry, queried at 24 hours. -/
theorem getThresholdValue_missingHourFailure_witness :
    clampAgeHours 24 < 30
      ∧ missingHourBucket.values.lookup (clampAgeHours 24) = none
      ∧ getThresholdValue missingHourTable 38 24
        = .error (.dataNotAvailable "noThresholdValueForHour") :=
  ⟨by decide, by decide,
    getThresholdValue_missingHourFailure missingHourTable 38 24 38
      missingHourBucket rfl rfl (by decide) (by decide)⟩

/-- Claim C4 counterexample: contrary to the claim that assessHyperbiliRisk
performs no clinical input-range policing, a gestational age of 32 weeks and
a measured bilirubin of 35 mg/dL are each rejected with an
InvalidInputError range check before any table-driven computation. -/
theorem assessHyperbiliRisk_rejectsOutOfRange :
    assessHyperbiliRisk modelReferenceTables ⟨32, 48, 10, some []⟩
        = .error (.invalidInput "gestationalAgeBelowMinimum")
      ∧ assessHyperbiliRisk modelReferenceTables ⟨38, 48, 35, some []⟩
        = .error (.invalidInput "tsbAboveMaximum") :=
  ⟨rfl, rfl⟩

/-- Claim C4 (amended): assessHyperbiliRisk does police clinical input
ranges: an input with gestational age outside [35, 42], age outside
[1, 336], or measured bilirubin outside [0, 30] is rejected with an
InvalidInputError from one of the six ordered range checks; for an input
inside all six ranges, the only failures the assessment can produce are the
data-integrity faults of the resolver and lookup. -/
theorem assessHyperbiliRisk_rangePolicing (tables : AllReferenceTables)
    (i : HyperbiliRiskInput) :
    ((i.gestationalAge < 35 ∨ 42 < i.gestationalAge
        ∨ i.currentAgeHours < 1 ∨ 336 < i.currentAgeHours
        ∨ i.currentTSB < 0 ∨ 30 < i.currentTSB) →
      ∃ tag, assessHyperbiliRisk tables i = .error (.invalidInput tag)
        ∧ tag ∈ ["gestationalAgeBelowMinimum", "gestationalAgeAboveMaximum",
            "ageBelowMinimum", "ageExceedsMaximum",
            "tsbBelowMinimum", "tsbAboveMaximum"])
      ∧ (35 ≤ i.gestationalAge → i.gestationalAge ≤ 42
          → 1 ≤ i.currentAgeHours → i.currentAgeHours ≤ 336
          → 0 ≤ i.currentTSB → i.currentTSB ≤ 30
          → ∀ e, assessHyperbiliRisk tables i = .error e
            → (∃ s, e = .dataNotAvailable s)
              ∨ e = .invalidInput "unableToDetermineGestationalAgeKey") := by
  constructor
  · intro hout
    by_cases c1 : i.gestationalAge < 35
    · refine ⟨"gestationalAgeBelowMinimum", ?_, by decide⟩
      apply assessHyperbiliRisk_of_validate_error
      unfold validateHyperbiliRiskInput
      rw [if_pos (show i.gestationalAge < HYPERBILI_THRESHOLDS.MIN_GESTATIONAL_AGE_WEEKS from c1)]
    · by_cases c2 : 42 < i.gestationalAge
      · refine ⟨"gestationalAgeAboveMaximum", ?_, by decide⟩
        apply assessHyperbiliRisk_of_validate_error
        unfold validateHyperbiliRiskInput
        rw [if_neg (show ¬(i.gestationalAge < HYPERBILI_THRESHOLDS.MIN_GESTATIONAL_AGE_WEEKS) from c1), if_pos (show i.gestationalAge > HYPERBILI_THRESHOLDS.MAX_GESTATIONAL_AGE_WEEKS from c2)]
      · by_cases c3 : i.currentAgeHours < 1
        · refine ⟨"ageBelowMinimum", ?_, by decide⟩
          apply assessHyperbiliRisk_of_validate_error
          unfold validateHyperbiliRiskInput
          rw [if_neg (show ¬(i.gestationalAge < HYPERBILI_THRESHOLDS.MIN_GESTATIONAL_AGE_WEEKS) from c1), if_neg (show ¬(i.gestationalAge > HYPERBILI_THRESHOLDS.MAX_GESTATIONAL_AGE_WEEKS) from c2),
            if_pos (show i.currentAgeHours < HYPERBILI_THRESHOLDS.MIN_AGE_HOURS from c3)]
        · by_cases c4 : 336 < i.currentAgeHours
          · refine ⟨"ageExceedsMaximum", ?_, by decide⟩
            apply assessHyperbiliRisk_of_validate_error
            unfold validateHyperbiliRiskInput
            rw [if_neg (show ¬(i.gestationalAge < HYPERBILI_THRESHOLDS.MIN_GESTATIONAL_AGE_WEEKS) from c1), if_neg (show ¬(i.gestationalAge > HYPERBILI_THRESHOLDS.MAX_GESTATIONAL_AGE_WEEKS) from c2), if_neg (show ¬(i.currentAgeHours < HYPERBILI_THRESHOLDS.MIN_AGE_HOURS) from c3),
              if_pos (show i.currentAgeHours > HYPERBILI_THRESHOLDS.MAX_AGE_HOURS from c4)]
          · by_cases c5 : i.currentTSB < 0
            · refine ⟨"tsbBelowMinimum", ?_, by decide⟩
              apply assessHyperbiliRisk_of_validate_error
              unfold validateHyperbiliRiskInput
              rw [if_neg (show ¬(i.gestationalAge < HYPERBILI_THRESHOLDS.MIN_GESTATIONAL_AGE_WEEKS) from c1), if_neg (show ¬(i.gestationalAge > HYPERBILI_THRESHOLDS.MAX_GESTATIONAL_AGE_WEEKS) from c2), if_neg (show ¬(i.currentAgeHours < HYPERBILI_THRESHOLDS.MIN_AGE_HOURS) from c3), if_neg (show ¬(i.currentAgeHours > HYPERBILI_THRESHOLDS.MAX_AGE_HOURS) from c4),
                if_pos (show i.currentTSB < HYPERBILI_THRESHOLDS.MIN_TSB_MG_DL from c5)]
            · by_cases c6 : 30 < i.currentTSB
              · refine ⟨"tsbAboveMaximum", ?_, by decide⟩
                apply assessHyperbiliRisk_of_validate_error
                unfold validateHyperbiliRiskInput
                rw [if_neg (show ¬(i.gestationalAge < HYPERBILI_THRESHOLDS.MIN_GESTATIONAL_AGE_WEEKS) from c1), if_neg (show ¬(i.gestationalAge > HYPERBILI_THRESHOLDS.MAX_GESTATIONAL_AGE_WEEKS) from c2), if_neg (show ¬(i.currentAgeHours < HYPERBILI_THRESHOLDS.MIN_AGE_HOURS) from c3), if_neg (show ¬(i.currentAgeHours > HYPERBILI_THRESHOLDS.MAX_AGE_HOURS) from c4), if_neg (show ¬(i.currentTSB < HYPERBILI_THRESHOLDS.MIN_TSB_MG_DL) from c5),
                  if_pos (show i.currentTSB > HYPERBILI_THRESHOLDS.MAX_TSB_MG_DL from c6)]
              · rcases hout with h | h | h | h | h | h
                · exact absurd h c1
                · exact absurd h c2
                · exact absurd h c3
                · exact absurd h c4
                · exact absurd h c5
                · exact absurd h c6
  · intro g1 g2 g3 g4 g5 g6 e he
    have hv : validateHyperbiliRiskInput i = .ok () :=
      validateHyperbiliRiskInput_ok i g1 g2 g3 g4 g5 g6
    unfold assessHyperbiliRisk at he
    simp only [hv] at he
    split at he
    · rename_i e2 heq
      obtain rfl : e2 = e := by injection he
      exact calculateBilirubinThresholds_error_kinds tables _ e2 g4 heq
    · exact Except.noConfusion he

/-- Witness for claim C4 (amended) at a below-range gestational age. -/
theorem assessHyperbiliRisk_rangePolicing_witness :
    (32 : ℚ) < 35
      ∧ ∃ tag, assessHyperbiliRisk modelReferenceTables ⟨32, 48, 10, some []⟩
          = .error (.invalidInput tag)
        ∧ tag ∈ ["gestationalAgeBelowMinimum", "gestationalAgeAboveMaximum",
            "ageBelowMinimum", "ageExceedsMaximum",
            "tsbBelowMinimum", "tsbAboveMaximum"] :=
  ⟨by norm_num,
    (assessHyperbiliRisk_rangePolicing modelReferenceTables
      ⟨32, 48, 10, some []⟩).1 (Or.inl (by norm_num))⟩

/-- Claim C10: omitting riskFactors is equivalent to passing an empty list:
the assessment results coincide, and any successful result from the omitted
form reports no neurotoxicity risk factors, AAP figure 2, an empty
present-risk-factor list, and thresholds computed from the no-risk tables. -/
theorem assessHyperbiliRisk_defaultRiskFactors (tables : AllReferenceTables)
    (ga ah tsb : ℚ) :
    assessHyperbiliRisk tables ⟨ga, ah, tsb, none⟩
        = assessHyperbiliRisk tables ⟨ga, ah, tsb, some []⟩
      ∧ ∀ r, assessHyperbiliRisk tables ⟨ga, ah, tsb, none⟩ = .ok r →
          r.assessmentContext.hasNeurotoxicityRiskFactors = false
          ∧ r.assessmentContext.aapFigureUsed = 2
          ∧ r.assessmentContext.presentRiskFactors = []
          ∧ calculateBilirubinThresholds tables ⟨ga, ah, false⟩ = .ok r.thresholds := by
  constructor
  · rfl
  · intro r hr
    unfold assessHyperbiliRisk at hr
    split at hr
    · exact Except.noConfusion hr
    · simp only [] at hr
      split at hr
      · exact Except.noConfusion hr
      · rename_i th heq
        obtain rfl : _ = r := Except.ok.inj hr
        exact ⟨rfl, rfl, rfl, heq⟩

/-- Witness for claim C10 at a concrete input on the modelled tables. -/
theorem assessHyperbiliRisk_defaultRiskFactors_witness :
    assessHyperbiliRisk modelReferenceTables ⟨39, 48, 10, none⟩
        = assessHyperbiliRisk modelReferenceTables ⟨39, 48, 10, some []⟩
      ∧ ∃ r, assessHyperbiliRisk modelReferenceTables ⟨39, 48, 10, none⟩ = .ok r
          ∧ r.assessmentContext.hasNeurotoxicityRiskFactors = false
          ∧ r.assessmentContext.aapFigureUsed = 2
          ∧ r.assessmentContext.presentRiskFactors = [] := by
  have h := assessHyperbiliRisk_defaultRiskFactors modelReferenceTables 39 48 10
  obtain ⟨p1, p2, p3, _⟩ := h.2 _ rfl
  exact ⟨h.1, _, rfl, p1, p2, p3⟩

/-- For a positive gap at most 0.1, no catalog rule matches (the first band
opens strictly above 0.1) and the matcher returns the fallback rule. -/
theorem followUp_fallbackBand (g a : ℚ) (h0 : 0 < g) (h01 : g ≤ (0.1 : ℚ)) :
    findFollowUpRule g a = FALLBACK_RULE
      ∧ HYPERBILI_FOLLOW_UP_RULES.countP (followUpRuleMatches g a) = 0 := by
  have hneg : ¬(g ≤ 0) := not_le.mpr h0
  have d1 : decide ((0.1 : ℚ) < g) = false := decide_eq_false (by intro hc; linarith)
  have d2 : decide ((2.0 : ℚ) < g) = false := decide_eq_false (by intro hc; linarith)
  have d3 : decide ((3.5 : ℚ) < g) = false := decide_eq_false (by intro hc; linarith)
  have d4 : decide ((5.5 : ℚ) < g) = false := decide_eq_false (by intro hc; linarith)
  have d5 : decide ((7.0 : ℚ) < g) = false := decide_eq_false (by intro hc; linarith)
  have m1a : followUpRuleMatches g a rule_1a = false := by
    simp [followUpRuleMatches, rule_1a, ExtQ.ltq, ExtQ.qle, d1]
  have m1b : followUpRuleMatches g a rule_1b = false := by
    simp [followUpRuleMatches, rule_1b, ExtQ.ltq, ExtQ.qle, d1]
  have m2 : followUpRuleMatches g a rule_2 = false := by
    simp [followUpRuleMatches, rule_2, ExtQ.ltq, ExtQ.qle, d2]
  have m3 : followUpRuleMatches g a rule_3 = false := by
    simp [followUpRuleMatches, rule_3, ExtQ.ltq, ExtQ.qle, d3]
  have m4a : followUpRuleMatches g a rule_4a = false := by
    simp [followUpRuleMatches, rule_4a, ExtQ.ltq, ExtQ.qle, d4]
  have m4b : followUpRuleMatches g a rule_4b = false := by
    simp [followUpRuleMatches, rule_4b, ExtQ.ltq, ExtQ.qle, d4]
  have m5a : followUpRuleMatches g a rule_5a = false := by
    simp [followUpRuleMatches, rule_5a, ExtQ.ltq, ExtQ.qle, d5]
  have m5b : followUpRuleMatches g a rule_5b = false := by
    simp [followUpRuleMatches, rule_5b, ExtQ.ltq, ExtQ.qle, d5]
  constructor
  · unfold findFollowUpRule
    rw [if_neg hneg]
    simp [HYPERBILI_FOLLOW_UP_RULES, List.find?, m1a, m1b, m2, m3, m4a, m4b, m5a, m5b]
  · simp [HYPERBILI_FOLLOW_UP_RULES, List.countP_cons, m1a, m1b, m2, m3, m4a, m4b,
      m5a, m5b]

/-- For a gap in the band (0.1, 2.0], exactly one catalog rule matches: the
age variant rule_1a below the discharge-warning age, rule_1b at or above it;
both carry the inclusive upper bound 2.0. -/
theorem followUp_band1 (g a : ℚ) (h1 : (0.1 : ℚ) < g) (h2 : g ≤ (2.0 : ℚ)) :
    HYPERBILI_FOLLOW_UP_RULES.countP (followUpRuleMatches g a) = 1
      ∧ findFollowUpRule g a ∈ HYPERBILI_FOLLOW_UP_RULES
      ∧ (findFollowUpRule g a).maxDifference = .fin 2.0 := by
  have hneg : ¬(g ≤ 0) := not_le.mpr (by linarith)
  have dLt1 : decide ((0.1 : ℚ) < g) = true := decide_eq_true h1
  have dLe2 : decide (g ≤ (2.0 : ℚ)) = true := decide_eq_true h2
  have d2 : decide ((2.0 : ℚ) < g) = false := decide_eq_false (by intro hc; linarith)
  have d3 : decide ((3.5 : ℚ) < g) = false := decide_eq_false (by intro hc; linarith)
  have d4 : decide ((5.5 : ℚ) < g) = false := decide_eq_false (by intro hc; linarith)
  have d5 : decide ((7.0 : ℚ) < g) = false := decide_eq_false (by intro hc; linarith)
  have m2 : followUpRuleMatches g a rule_2 = false := by
    simp [followUpRuleMatches, rule_2, ExtQ.ltq, ExtQ.qle, d2]
  have m3 : followUpRuleMatches g a rule_3 = false := by
    simp [followUpRuleMatches, rule_3, ExtQ.ltq, ExtQ.qle, d3]
  have m4a : followUpRuleMatches g a rule_4a = false := by
    simp [followUpRuleMatches, rule_4a, ExtQ.ltq, ExtQ.qle, d4]
  have m4b : followUpRuleMatches g a rule_4b = false := by
    simp [followUpRuleMatches, rule_4b, ExtQ.ltq, ExtQ.qle, d4]
  have m5a : followUpRuleMatches g a rule_5a = false := by
    simp [followUpRuleMatches, rule_5a, ExtQ.ltq, ExtQ.qle, d5]
  have m5b : followUpRuleMatches g a rule_5b = false := by
    simp [followUpRuleMatches, rule_5b, ExtQ.ltq, ExtQ.qle, d5]
  rcases lt_or_le a (24 : ℚ) with ha | ha
  · have dage : decide (a < (24 : ℚ)) = true := decide_eq_true ha
    have dmin : decide (a ≥ (24 : ℚ)) = false := decide_eq_false (not_le.mpr ha)
    have m1a : followUpRuleMatches g a rule_1a = true := by
      simp [followUpRuleMatches, rule_1a, ExtQ.ltq, ExtQ.qle,
        HYPERBILI_THRESHOLDS.DISCHARGE_WARNING_AGE_HOURS, dLt1, dLe2, dage]
    have m1b : followUpRuleMatches g a rule_1b = false := by
      simp [followUpRuleMatches, rule_1b, ExtQ.ltq, ExtQ.qle,
        HYPERBILI_THRESHOLDS.DISCHARGE_WARNING_AGE_HOURS, dmin]
    have hfind : findFollowUpRule g a = rule_1a := by
      unfold findFollowUpRule
      rw [if_neg hneg]
      simp [HYPERBILI_FOLLOW_UP_RULES, List.find?, m1a]
    refine ⟨?_, ?_, ?_⟩
    · simp [HYPERBILI_FOLLOW_UP_RULES, List.countP_cons, m1a, m1b, m2, m3, m4a,
        m4b, m5a, m5b]
    · rw [hfind]; simp [HYPERBILI_FOLLOW_UP_RULES]
    · rw [hfind]; rfl
  · have dage : decide (a < (24 : ℚ)) = false := decide_eq_false (not_lt.mpr ha)
    have dmin : decide (a ≥ (24 : ℚ)) = true := decide_eq_true ha
    have m1a : followUpRuleMatches g a rule_1a = false := by
      simp [followUpRuleMatches, rule_1a, ExtQ.ltq, ExtQ.qle,
        HYPERBILI_THRESHOLDS.DISCHARGE_WARNING_AGE_HOURS, dage]
    have m1b : followUpRuleMatches g a rule_1b = true := by
      simp [followUpRuleMatches, rule_1b, ExtQ.ltq, ExtQ.qle,
        HYPERBILI_THRESHOLDS.DISCHARGE_WARNING_AGE_HOURS, dLt1, dLe2, dmin]
    have hfind : findFollowUpRule g a = rule_1b := by
      unfold findFollowUpRule
      rw [if_neg hneg]
      simp [HYPERBILI_FOLLOW_UP_RULES, List.find?, m1a, m1b]
    refine ⟨?_, ?_, ?_⟩
    · simp [HYPERBILI_FOLLOW_UP_RULES, List.countP_cons, m1a, m1b, m2, m3, m4a,
        m4b, m5a, m5b]
    · rw [hfind]; simp [HYPERBILI_FOLLOW_UP_RULES]
    · rw [hfind]; rfl

/-- For a gap in the band (2.0, 3.5], exactly one catalog rule matches:
rule_2, which carries the inclusive upper bound 3.5. -/
theorem followUp_band2 (g a : ℚ) (h1 : (2.0 : ℚ) < g) (h2 : g ≤ (3.5 : ℚ)) :
    HYPERBILI_FOLLOW_UP_RULES.countP (followUpRuleMatches g a) = 1
      ∧ findFollowUpRule g a ∈ HYPERBILI_FOLLOW_UP_RULES
      ∧ (findFollowUpRule g a).maxDifference = .fin 3.5 := by
  have hneg : ¬(g ≤ 0) := not_le.mpr (by linarith)
  have dLt : decide ((2.0 : ℚ) < g) = true := decide_eq_true h1
  have dLe : decide (g ≤ (3.5 : ℚ)) = true := decide_eq_true h2
  have dL2 : decide (g ≤ (2.0 : ℚ)) = false := decide_eq_false (by intro hc; linarith)
  have d35 : decide ((3.5 : ℚ) < g) = false := decide_eq_false (by intro hc; linarith)
  have d55 : decide ((5.5 : ℚ) < g) = false := decide_eq_false (by intro hc; linarith)
  have d7 : decide ((7.0 : ℚ) < g) = false := decide_eq_false (by intro hc; linarith)
  have m1a : followUpRuleMatches g a rule_1a = false := by
    simp [followUpRuleMatches, rule_1a, ExtQ.ltq, ExtQ.qle, dL2]
  have m1b : followUpRuleMatches g a rule_1b = false := by
    simp [followUpRuleMatches, rule_1b, ExtQ.ltq, ExtQ.qle, dL2]
  have m3 : followUpRuleMatches g a rule_3 = false := by
    simp [followUpRuleMatches, rule_3, ExtQ.ltq, ExtQ.qle, d35]
  have m4a : followUpRuleMatches g a rule_4a = false := by
    simp [followUpRuleMatches, rule_4a, ExtQ.ltq, ExtQ.qle, d55]
  have m4b : followUpRuleMatches g a rule_4b = false := by
    simp [followUpRuleMatches, rule_4b, ExtQ.ltq, ExtQ.qle, d55]
  have m5a : followUpRuleMatches g a rule_5a = false := by
    simp [followUpRuleMatches, rule_5a, ExtQ.ltq, ExtQ.qle, d7]
  have m5b : followUpRuleMatches g a rule_5b = false := by
    simp [followUpRuleMatches, rule_5b, ExtQ.ltq, ExtQ.qle, d7]
  have hpos : followUpRuleMatches g a rule_2 = true := by
    simp [followUpRuleMatches, rule_2, ExtQ.ltq, ExtQ.qle, dLt, dLe]
  have hfind : findFollowUpRule g a = rule_2 := by
    unfold findFollowUpRule
    rw [if_neg hneg]
    simp [HYPERBILI_FOLLOW_UP_RULES, List.find?, hpos, m1a, m1b]
  refine ⟨?_, ?_, ?_⟩
  · simp [HYPERBILI_FOLLOW_UP_RULES, List.countP_cons, hpos, m1a, m1b, m3, m4a, m4b, m5a, m5b]
  · rw [hfind]; simp [HYPERBILI_FOLLOW_UP_RULES]
  · rw [hfind]; rfl

/-- For a gap in the band (3.5, 5.5], exactly one catalog rule matches:
rule_3, which carries the inclusive upper bound 5.5. -/
theorem followUp_band3 (g a : ℚ) (h1 : (3.5 : ℚ) < g) (h2 : g ≤ (5.5 : ℚ)) :
    HYPERBILI_FOLLOW_UP_RULES.countP (followUpRuleMatches g a) = 1
      ∧ findFollowUpRule g a ∈ HYPERBILI_FOLLOW_UP_RULES
      ∧ (findFollowUpRule g a).maxDifference = .fin 5.5 := by
  have hneg : ¬(g ≤ 0) := not_le.mpr (by linarith)
  have dLt : decide ((3.5 : ℚ) < g) = true := decide_eq_true h1
  have dLe : decide (g ≤ (5.5 : ℚ)) = true := decide_eq_true h2
  have dL2 : decide (g ≤ (2.0 : ℚ)) = false := decide_eq_false (by intro hc; linarith)
  have dL35 : decide (g ≤ (3.5 : ℚ)) = false := decide_eq_false (by intro hc; linarith)
  have d55 : decide ((5.5 : ℚ) < g) = false := decide_eq_false (by intro hc; linarith)
  have d7 : decide ((7.0 : ℚ) < g) = false := decide_eq_false (by intro hc; linarith)
  have m1a : followUpRuleMatches g a rule_1a = false := by
    simp [followUpRuleMatches, rule_1a, ExtQ.ltq, ExtQ.qle, dL2]
  have m1b : followUpRuleMatches g a rule_1b = false := by
    simp [followUpRuleMatches, rule_1b, ExtQ.ltq, ExtQ.qle, dL2]
  have m2 : followUpRuleMatches g a rule_2 = false := by
    simp [followUpRuleMatches, rule_2, ExtQ.ltq, ExtQ.qle, dL35]
  have m4a : followUpRuleMatches g a rule_4a = false := by
    simp [followUpRuleMatches, rule_4a, ExtQ.ltq, ExtQ.qle, d55]
  have m4b : followUpRuleMatches g a rule_4b = false := by
    simp [followUpRuleMatches, rule_4b, ExtQ.ltq, ExtQ.qle, d55]
  have m5a : followUpRuleMatches g a rule_5a = false := by
    simp [followUpRuleMatches, rule_5a, ExtQ.ltq, ExtQ.qle, d7]
  have m5b : followUpRuleMatches g a rule_5b = false := by
    simp [followUpRuleMatches, rule_5b, ExtQ.ltq, ExtQ.qle, d7]
  have hpos : followUpRuleMatches g a rule_3 = true := by
    simp [followUpRuleMatches, rule_3, ExtQ.ltq, ExtQ.qle, dLt, dLe]
  have hfind : findFollowUpRule g a = rule_3 := by
    unfold findFollowUpRule
    rw [if_neg hneg]
    simp [HYPERBILI_FOLLOW_UP_RULES, List.find?, hpos, m1a, m1b, m2]
  refine ⟨?_, ?_, ?_⟩
  · simp [HYPERBILI_FOLLOW_UP_RULES, List.countP_cons, hpos, m1a, m1b, m2, m4a, m4b, m5a, m5b]
  · rw [hfind]; simp [HYPERBILI_FOLLOW_UP_RULES]
  · rw [hfind]; rfl

/-- For a gap in the band (5.5, 7.0], exactly one catalog rule matches: the
age variant rule_4a below the follow-up age threshold, rule_4b at or above
it; both carry the inclusive upper bound 7.0. -/
theorem followUp_band4 (g a : ℚ) (h1 : (5.5 : ℚ) < g) (h2 : g ≤ (7.0 : ℚ)) :
    HYPERBILI_FOLLOW_UP_RULES.countP (followUpRuleMatches g a) = 1
      ∧ findFollowUpRule g a ∈ HYPERBILI_FOLLOW_UP_RULES
      ∧ (findFollowUpRule g a).maxDifference = .fin 7.0 := by
  have hneg : ¬(g ≤ 0) := not_le.mpr (by linarith)
  have dLt : decide ((5.5 : ℚ) < g) = true := decide_eq_true h1
  have dLe : decide (g ≤ (7.0 : ℚ)) = true := decide_eq_true h2
  have dL2 : decide (g ≤ (2.0 : ℚ)) = false := decide_eq_false (by intro hc; linarith)
  have dL35 : decide (g ≤ (3.5 : ℚ)) = false := decide_eq_false (by intro hc; linarith)
  have dL55 : decide (g ≤ (5.5 : ℚ)) = false := decide_eq_false (by intro hc; linarith)
  have d7 : decide ((7.0 : ℚ) < g) = false := decide_eq_false (by intro hc; linarith)
  have m1a : followUpRuleMatches g a rule_1a = false := by
    simp [followUpRuleMatches, rule_1a, ExtQ.ltq, ExtQ.qle, dL2]
  have m1b : followUpRuleMatches g a rule_1b = false := by
    simp [followUpRuleMatches, rule_1b, ExtQ.ltq, ExtQ.qle, dL2]
  have m2 : followUpRuleMatches g a rule_2 = false := by
    simp [followUpRuleMatches, rule_2, ExtQ.ltq, ExtQ.qle, dL35]
  have m3 : followUpRuleMatches g a rule_3 = false := by
    simp [followUpRuleMatches, rule_3, ExtQ.ltq, ExtQ.qle, dL55]
  have m5a : followUpRuleMatches g a rule_5a = false := by
    simp [followUpRuleMatches, rule_5a, ExtQ.ltq, ExtQ.qle, d7]
  have m5b : followUpRuleMatches g a rule_5b = false := by
    simp [followUpRuleMatches, rule_5b, ExtQ.ltq, ExtQ.qle, d7]
  rcases lt_or_le a (72 : ℚ) with ha | ha
  · have dage : decide (a < (72 : ℚ)) = true := decide_eq_true ha
    have dmin : decide (a ≥ (72 : ℚ)) = false := decide_eq_false (not_le.mpr ha)
    have m4a : followUpRuleMatches g a rule_4a = true := by
      simp [followUpRuleMatches, rule_4a, ExtQ.ltq, ExtQ.qle,
        HYPERBILI_THRESHOLDS.FOLLOW_UP_AGE_THRESHOLD_HOURS, dLt, dLe, dage]
    have m4b : followUpRuleMatches g a rule_4b = false := by
      simp [followUpRuleMatches, rule_4b, ExtQ.ltq, ExtQ.qle,
        HYPERBILI_THRESHOLDS.FOLLOW_UP_AGE_THRESHOLD_HOURS, dmin]
    have hfind : findFollowUpRule g a = rule_4a := by
      unfold findFollowUpRule
      rw [if_neg hneg]
      simp [HYPERBILI_FOLLOW_UP_RULES, List.find?, m1a, m1b, m2, m3, m4a]
    refine ⟨?_, ?_, ?_⟩
    · simp [HYPERBILI_FOLLOW_UP_RULES, List.countP_cons, m1a, m1b, m2, m3, m4a,
        m4b, m5a, m5b]
    · rw [hfind]; simp [HYPERBILI_FOLLOW_UP_RULES]
    · rw [hfind]; rfl
  · have dage : decide (a < (72 : ℚ)) = false := decide_eq_false (not_lt.mpr ha)
    have dmin : decide (a ≥ (72 : ℚ)) = true := decide_eq_true ha
    have m4a : followUpRuleMatches g a rule_4a = false := by
      simp [followUpRuleMatches, rule_4a, ExtQ.ltq, ExtQ.qle,
        HYPERBILI_THRESHOLDS.FOLLOW_UP_AGE_THRESHOLD_HOURS, dage]
    have m4b : followUpRuleMatches g a rule_4b = true := by
      simp [followUpRuleMatches, rule_4b, ExtQ.ltq, ExtQ.qle,
        HYPERBILI_THRESHOLDS.FOLLOW_UP_AGE_THRESHOLD_HOURS, dLt, dLe, dmin]
    have hfind : findFollowUpRule g a = rule_4b := by
      unfold findFollowUpRule
      rw [if_neg hneg]
      simp [HYPERBILI_FOLLOW_UP_RULES, List.find?, m1a, m1b, m2, m3, m4a, m4b]
    refine ⟨?_, ?_, ?_⟩
    · simp [HYPERBILI_FOLLOW_UP_RULES, List.countP_cons, m1a, m1b, m2, m3, m4a,
        m4b, m5a, m5b]
    · rw [hfind]; simp [HYPERBILI_FOLLOW_UP_RULES]
    · rw [hfind]; rfl

/-- For a gap above 7.0, exactly one catalog rule matches: the age variant
rule_5a below the follow-up age threshold, rule_5b at or above it; both
carry the unbounded upper limit. -/
theorem followUp_band5 (g a : ℚ) (h1 : (7.0 : ℚ) < g) :
    HYPERBILI_FOLLOW_UP_RULES.countP (followUpRuleMatches g a) = 1
      ∧ findFollowUpRule g a ∈ HYPERBILI_FOLLOW_UP_RULES
      ∧ (findFollowUpRule g a).maxDifference = .posInf := by
  have hneg : ¬(g ≤ 0) := not_le.mpr (by linarith)
  have dLt : decide ((7.0 : ℚ) < g) = true := decide_eq_true h1
  have dL2 : decide (g ≤ (2.0 : ℚ)) = false := decide_eq_false (by intro hc; linarith)
  have dL35 : decide (g ≤ (3.5 : ℚ)) = false := decide_eq_false (by intro hc; linarith)
  have dL55 : decide (g ≤ (5.5 : ℚ)) = false := decide_eq_false (by intro hc; linarith)
  have dL7 : decide (g ≤ (7.0 : ℚ)) = false := decide_eq_false (by intro hc; linarith)
  have m1a : followUpRuleMatches g a rule_1a = false := by
    simp [followUpRuleMatches, rule_1a, ExtQ.ltq, ExtQ.qle, dL2]
  have m1b : followUpRuleMatches g a rule_1b = false := by
    simp [followUpRuleMatches, rule_1b, ExtQ.ltq, ExtQ.qle, dL2]
  have m2 : followUpRuleMatches g a rule_2 = false := by
    simp [followUpRuleMatches, rule_2, ExtQ.ltq, ExtQ.qle, dL35]
  have m3 : followUpRuleMatches g a rule_3 = false := by
    simp [followUpRuleMatches, rule_3, ExtQ.ltq, ExtQ.qle, dL55]
  have m4a : followUpRuleMatches g a rule_4a = false := by
    simp [followUpRuleMatches, rule_4a, ExtQ.ltq, ExtQ.qle, dL7]
  have m4b : followUpRuleMatches g a rule_4b = false := by
    simp [followUpRuleMatches, rule_4b, ExtQ.ltq, ExtQ.qle, dL7]
  rcases lt_or_le a (72 : ℚ) with ha | ha
  · have dage : decide (a < (72 : ℚ)) = true := decide_eq_true ha
    have dmin : decide (a ≥ (72 : ℚ)) = false := decide_eq_false (not_le.mpr ha)
    have m5a : followUpRuleMatches g a rule_5a = true := by
      simp [followUpRuleMatches, rule_5a, ExtQ.ltq, ExtQ.qle,
        HYPERBILI_THRESHOLDS.FOLLOW_UP_AGE_THRESHOLD_HOURS, dLt, dage]
    have m5b : followUpRuleMatches g a rule_5b = false := by
      simp [followUpRuleMatches, rule_5b, ExtQ.ltq, ExtQ.qle,
        HYPERBILI_THRESHOLDS.FOLLOW_UP_AGE_THRESHOLD_HOURS, dmin]
    have hfind : findFollowUpRule g a = rule_5a := by
      unfold findFollowUpRule
      rw [if_neg hneg]
      simp [HYPERBILI_FOLLOW_UP_RULES, List.find?, m1a, m1b, m2, m3, m4a, m4b, m5a]
    refine ⟨?_, ?_, ?_⟩
    · simp [HYPERBILI_FOLLOW_UP_RULES, List.countP_cons, m1a, m1b, m2, m3, m4a,
        m4b, m5a, m5b]
    · rw [hfind]; simp [HYPERBILI_FOLLOW_UP_RULES]
    · rw [hfind]; rfl
  · have dage : decide (a < (72 : ℚ)) = false := decide_eq_false (not_lt.mpr ha)
    have dmin : decide (a ≥ (72 : ℚ)) = true := decide_eq_true ha
    have m5a : followUpRuleMatches g a rule_5a = false := by
      simp [followUpRuleMatches, rule_5a, ExtQ.ltq, ExtQ.qle,
        HYPERBILI_THRESHOLDS.FOLLOW_UP_AGE_THRESHOLD_HOURS, dage]
    have m5b : followUpRuleMatches g a rule_5b = true := by
      simp [followUpRuleMatches, rule_5b, ExtQ.ltq, ExtQ.qle,
        HYPERBILI_THRESHOLDS.FOLLOW_UP_AGE_THRESHOLD_HOURS, dLt, dmin]
    have hfind : findFollowUpRule g a = rule_5b := by
      unfold findFollowUpRule
      rw [if_neg hneg]
      simp [HYPERBILI_FOLLOW_UP_RULES, List.find?, m1a, m1b, m2, m3, m4a, m4b,
        m5a, m5b]
    refine ⟨?_, ?_, ?_⟩
    · simp [HYPERBILI_FOLLOW_UP_RULES, List.countP_cons, m1a, m1b, m2, m3, m4a,
        m4b, m5a, m5b]
    · rw [hfind]; simp [HYPERBILI_FOLLOW_UP_RULES]
    · rw [hfind]; rfl

/-- Claim C3 counterexample: at the boundary gap 0.1 exactly, and for gaps
inside (0, 0.1) such as 0.05, the matcher does not resolve to a catalog
rule: it returns the fallback rule, whose id differs from every catalog
rule id. -/
theorem findFollowUpRule_smallGapFallback :
    findFollowUpRule 0.1 24 = FALLBACK_RULE
      ∧ findFollowUpRule 0.05 24 = FALLBACK_RULE
      ∧ FALLBACK_RULE.id = "rule_fallback"
      ∧ ∀ r ∈ HYPERBILI_FOLLOW_UP_RULES, r.id ≠ "rule_fallback" := by
  refine ⟨(followUp_fallbackBand 0.1 24 (by norm_num) (by norm_num)).1,
    (followUp_fallbackBand 0.05 24 (by norm_num) (by norm_num)).1, rfl, ?_⟩
  intro r hr
  fin_cases hr <;> decide

/-- Claim C3 (amended): for every positive gap at most 0.1 no catalog rule
matches and the matcher returns the fallback (the first band opens strictly
above 0.1); for each boundary gap 2.0, 3.5, 5.5 and 7.0 combined with each
ageHours in 23, 24, 71, 72, 400, exactly one catalog rule matches and the
returned rule carries that gap as its inclusive upper bound; and for every
gap above 7.0 exactly one catalog rule, from the unbounded top band,
matches. -/
theorem findFollowUpRule_boundaryCoverage :
    (∀ g a : ℚ, 0 < g → g ≤ (0.1 : ℚ) →
        findFollowUpRule g a = FALLBACK_RULE
        ∧ HYPERBILI_FOLLOW_UP_RULES.countP (followUpRuleMatches g a) = 0)
      ∧ (∀ g ∈ ([2.0, 3.5, 5.5, 7.0] : List ℚ),
          ∀ a ∈ ([23, 24, 71, 72, 400] : List ℚ),
            HYPERBILI_FOLLOW_UP_RULES.countP (followUpRuleMatches g a) = 1
            ∧ findFollowUpRule g a ∈ HYPERBILI_FOLLOW_UP_RULES
            ∧ (findFollowUpRule g a).maxDifference = .fin g)
      ∧ (∀ g a : ℚ, (7.0 : ℚ) < g →
          HYPERBILI_FOLLOW_UP_RULES.countP (followUpRuleMatches g a) = 1
          ∧ findFollowUpRule g a ∈ HYPERBILI_FOLLOW_UP_RULES
          ∧ (findFollowUpRule g a).maxDifference = .posInf) := by
  refine ⟨fun g a h0 h01 => followUp_fallbackBand g a h0 h01, ?_,
    fun g a h7 => followUp_band5 g a h7⟩
  intro g hg a ha
  fin_cases hg
  · exact followUp_band1 2.0 a (by norm_num) (by norm_num)
  · exact followUp_band2 3.5 a (by norm_num) (by norm_num)
  · exact followUp_band3 5.5 a (by norm_num) (by norm_num)
  · exact followUp_band4 7.0 a (by norm_num) (by norm_num)

/-- Witness for claim C3 (amended) at a gap inside the fallback band and a
gap above the top boundary. -/
theorem findFollowUpRule_boundaryCoverage_witness :
    ((0 : ℚ) < 0.05 ∧ (0.05 : ℚ) ≤ 0.1
        ∧ findFollowUpRule 0.05 24 = FALLBACK_RULE)
      ∧ ((7.0 : ℚ) < 8
        ∧ HYPERBILI_FOLLOW_UP_RULES.countP (followUpRuleMatches 8 23) = 1) := by
  constructor
  · exact ⟨by norm_num, by norm_num,
      (findFollowUpRule_boundaryCoverage.1 0.05 24 (by norm_num) (by norm_num)).1⟩
  · exact ⟨by norm_num,
      (findFollowUpRule_boundaryCoverage.2.2 8 23 (by norm_num)).1⟩

/-- Claim C8: for a positive gap, the matcher returns the first catalog rule,
in catalog order, whose band contains the gap (lower bound exclusive, upper
bound inclusive) and whose age window admits the age (lower inclusive,
upper exclusive, missing bound unconstrained); when no catalog rule matches
it returns the clinical-judgment fallback rule instead of failing. -/
theorem findFollowUpRule_orderedFirstMatch (d a : ℚ) (hd : 0 < d) :
    ((∀ r ∈ HYPERBILI_FOLLOW_UP_RULES, ¬ FollowUpRuleApplies d a r) →
        findFollowUpRule d a = FALLBACK_RULE)
      ∧ (∀ r ∈ HYPERBILI_FOLLOW_UP_RULES, FollowUpRuleApplies d a r →
          ∃ l₁ l₂, HYPERBILI_FOLLOW_UP_RULES = l₁ ++ findFollowUpRule d a :: l₂
            ∧ FollowUpRuleApplies d a (findFollowUpRule d a)
            ∧ ∀ x ∈ l₁, ¬ FollowUpRuleApplies d a x) := by
  have hneg : ¬(d ≤ 0) := not_le.mpr hd
  constructor
  · intro hall
    have hnone : HYPERBILI_FOLLOW_UP_RULES.find? (followUpRuleMatches d a) = none := by
      rw [List.find?_eq_none]
      intro x hx hpx
      exact hall x hx ((followUpRuleMatches_iff d a x).mp hpx)
    unfold findFollowUpRule
    rw [if_neg hneg, hnone]
  · intro r hr hrap
    cases hfind : HYPERBILI_FOLLOW_UP_RULES.find? (followUpRuleMatches d a) with
    | none =>
      exact absurd ((followUpRuleMatches_iff d a r).mpr hrap)
        (List.find?_eq_none.mp hfind r hr)
    | some r0 =>
      obtain ⟨l₁, l₂, heq, hpr, hall⟩ := find?_eq_some_decomp _ _ _ hfind
      have hres : findFollowUpRule d a = r0 := by
        unfold findFollowUpRule
        rw [if_neg hneg, hfind]
      refine ⟨l₁, l₂, by rw [hres]; exact heq,
        hres ▸ (followUpRuleMatches_iff d a r0).mp hpr, ?_⟩
      intro x hx hap
      have := hall x hx
      rw [(followUpRuleMatches_iff d a x).mpr hap] at this
      exact Bool.noConfusion this

/-- Witness for claim C8 at gap 1 and age 25, where rule_1b is the first
matching catalog rule. -/
theorem findFollowUpRule_orderedFirstMatch_witness :
    (0 : ℚ) < 1
      ∧ ∃ l₁ l₂, HYPERBILI_FOLLOW_UP_RULES = l₁ ++ findFollowUpRule 1 25 :: l₂
          ∧ FollowUpRuleApplies 1 25 (findFollowUpRule 1 25)
          ∧ ∀ x ∈ l₁, ¬ FollowUpRuleApplies 1 25 x := by
  refine ⟨by norm_num,
    (findFollowUpRule_orderedFirstMatch 1 25 (by norm_num)).2 rule_1b ?_ ?_⟩
  · simp [HYPERBILI_FOLLOW_UP_RULES]
  · refine ⟨?_, ?_, ?_, trivial⟩
    · show (0.1 : ℚ) < 1
      norm_num
    · show (1 : ℚ) ≤ 2.0
      norm_num
    · show (25 : ℚ) ≥ 24
      norm_num
